import Mathlib

/-!
Verification of the ink-indexer ingestion pipeline against its design notes.

Shallow embedding of the TypeScript sources:
  - `src/indexer/event-decoder.ts`  (EventDecoder)
  - `src/indexer/storage.ts`        (EventStorage.saveBlockEvents)
  - `src/indexer/block-poller.ts`   (BlockPoller.start / pollBlocks)
  - `src/indexer/indexer.ts`        (IndexerEventEmitter, OnchainIndexer.processBlock)
  - `src/lib/retry.ts`              (exponentialRetry)

Machine integers: EVM words are `Nat` values below `2 ^ 256`; signed int256
values are read with an explicit twos-complement conversion.  JavaScript
`BigInt` decimal rendering is `toString` on `Nat` / `Int`.  Timestamps and
block numbers are `Nat`.  Fallible operations return `Except String`.
-/

set_option maxRecDepth 8000

namespace InkIndexer

/-! ## Raw log records (viem `Log` wire shape)

A topic and each 32-byte slot of the ABI-encoded payload are one 256-bit
word.  `transactionHash`, `logIndex` and `blockNumber` are nullable in the
viem type, hence `Option` here. -/

structure Log where
  address : String
  /-- ABI-encoded payload, one 256-bit word per 32-byte slot. -/
  data : List Nat
  topics : List Nat
  transactionHash : Option String
  logIndex : Option Nat
  blockNumber : Option Nat
  removed : Bool
deriving Repr, DecidableEq

/-- keccak256("Transfer(address,address,uint256)") — topic 0 of an ERC-20 transfer. -/
def TRANSFER_SIG : Nat :=
  0xddf252ad1be2c89b69c2b068fc378daa952ba7f163c4a11628f55a4df523b3ef

/-- keccak256 of the AMM-V2 Swap event signature. -/
def SWAP_V2_SIG : Nat :=
  0xd78ad95fa46c994b6551d0da85fc275fe613ce37657fb8d5e3d130840159d822

/-- keccak256 of the AMM-V3 Swap event signature. -/
def SWAP_V3_SIG : Nat :=
  0xc42079f94a6350d7e6235f29174924f928cc2ac818eb64fed8004e115fbcca67

/-- Twos-complement reading of a 256-bit word as a signed int256. -/
def toSigned256 (w : Nat) : Int :=
  if w < 2 ^ 255 then (w : Int) else (w : Int) - (2 ^ 256 : Int)

/-- ABI address decoding keeps the low 160 bits of the topic word. -/
def addressOf (w : Nat) : Nat := w % 2 ^ 160

/-! ## Decoded event payloads (`src/types/events.ts`)

The TS field names `from` and `to` are Lean keywords; they appear here as
`fromAddress` / `toAddress`.  Decoded indexed addresses are kept as their
160-bit numeric value. -/

structure ERC20TransferData where
  fromAddress : Nat
  toAddress : Nat
  value : String
  tokenAddress : String
  transactionHash : String
  logIndex : Nat
  blockNumber : Nat
  blockTimestamp : Nat
deriving Repr, DecidableEq

structure SwapData where
  poolAddress : String
  sender : Nat
  recipient : Nat
  amount0In : String
  amount1In : String
  amount0Out : String
  amount1Out : String
  transactionHash : String
  logIndex : Nat
  blockNumber : Nat
  blockTimestamp : Nat
deriving Repr, DecidableEq

inductive DecodedEvent where
  | erc20Transfer (data : ERC20TransferData)
  | swap (data : SwapData)
  | unknown (log : Log)
deriving Repr, DecidableEq

/-! ## EventDecoder (`src/indexer/event-decoder.ts`)

`decodeEventLog` from viem succeeds exactly when topic 0 equals the ABI
item event selector, the topic count matches the indexed inputs plus one,
and the payload holds one 32-byte slot per non-indexed input; otherwise it
throws, which each `tryDecode…` catches and turns into `null` (here:
`none`). -/

/-- Embedding of `tryDecodeERC20Transfer`: two indexed addresses plus one non-indexed
uint256 value slot. -/
def tryDecodeERC20Transfer (log : Log) (blockTimestamp : Nat) :
    Option ERC20TransferData :=
  if log.topics.head? = some TRANSFER_SIG ∧ log.topics.length = 3 ∧
      log.data.length = 1 then
    some
      { fromAddress := addressOf (log.topics.getD 1 0)
        toAddress := addressOf (log.topics.getD 2 0)
        value := toString (log.data.getD 0 0)
        tokenAddress := log.address
        transactionHash := log.transactionHash.getD ""
        logIndex := log.logIndex.getD 0
        blockNumber := log.blockNumber.getD 0
        blockTimestamp := blockTimestamp }
  else none

/-- Embedding of `tryDecodeSwapV2`: indexed sender and to, four non-indexed uint256
amounts; each amount is carried as its decimal string when positive and
normalized to "0" otherwise. -/
def tryDecodeSwapV2 (log : Log) (blockTimestamp : Nat) : Option SwapData :=
  if log.topics.head? = some SWAP_V2_SIG ∧ log.topics.length = 3 ∧
      log.data.length = 4 then
    let amount0In := log.data.getD 0 0
    let amount1In := log.data.getD 1 0
    let amount0Out := log.data.getD 2 0
    let amount1Out := log.data.getD 3 0
    some
      { poolAddress := log.address
        sender := addressOf (log.topics.getD 1 0)
        recipient := addressOf (log.topics.getD 2 0)
        amount0In := if 0 < amount0In then toString amount0In else "0"
        amount1In := if 0 < amount1In then toString amount1In else "0"
        amount0Out := if 0 < amount0Out then toString amount0Out else "0"
        amount1Out := if 0 < amount1Out then toString amount1Out else "0"
        transactionHash := log.transactionHash.getD ""
        logIndex := log.logIndex.getD 0
        blockNumber := log.blockNumber.getD 0
        blockTimestamp := blockTimestamp }
  else none

/-- Embedding of `tryDecodeSwapV3`: indexed sender and recipient, five non-indexed slots
(int256 amount0, int256 amount1, uint256 sqrtPriceX96, uint128 liquidity,
int24 tick); the sign of amount0/amount1 selects the In or Out column. -/
def tryDecodeSwapV3 (log : Log) (blockTimestamp : Nat) : Option SwapData :=
  if log.topics.head? = some SWAP_V3_SIG ∧ log.topics.length = 3 ∧
      log.data.length = 5 then
    let amount0 := toSigned256 (log.data.getD 0 0)
    let amount1 := toSigned256 (log.data.getD 1 0)
    some
      { poolAddress := log.address
        sender := addressOf (log.topics.getD 1 0)
        recipient := addressOf (log.topics.getD 2 0)
        amount0In := if amount0 < 0 then toString (-amount0) else "0"
        amount1In := if amount1 < 0 then toString (-amount1) else "0"
        amount0Out := if 0 < amount0 then toString amount0 else "0"
        amount1Out := if 0 < amount1 then toString amount1 else "0"
        transactionHash := log.transactionHash.getD ""
        logIndex := log.logIndex.getD 0
        blockNumber := log.blockNumber.getD 0
        blockTimestamp := blockTimestamp }
  else none

/-- Embedding of `EventDecoder.decode`: try Transfer, then V2 Swap, then V3 Swap; the
first schema that matches wins; a log matching none is classified Unknown
with the raw record preserved. -/
def decode (log : Log) (blockTimestamp : Nat) : DecodedEvent :=
  match tryDecodeERC20Transfer log blockTimestamp with
  | some data => .erc20Transfer data
  | none =>
    match tryDecodeSwapV2 log blockTimestamp with
    | some data => .swap data
    | none =>
      match tryDecodeSwapV3 log blockTimestamp with
      | some data => .swap data
      | none => .unknown log

/-! ## EventStorage (`src/indexer/storage.ts`)

Database state is the row lists of the three tables, each kept in insertion
order.  JavaScript `value || fallback` on strings maps the empty string to
the fallback. -/

/-- JavaScript `s || fallback` for strings. -/
def orDefault (s fallback : String) : String := if s = "" then fallback else s

/-- One `event_logs` row (the audit trail). -/
structure AuditRow where
  blockNumber : Nat
  blockTimestamp : Nat
  transactionHash : String
  logIndex : Nat
  address : String
  topics : List Nat
  data : List Nat
deriving Repr, DecidableEq

/-- One `erc20_transfers` row. -/
structure TransferRow where
  blockNumber : Nat
  blockTimestamp : Nat
  transactionHash : String
  logIndex : Nat
  fromAddress : Nat
  toAddress : Nat
  value : String
  tokenAddress : String
deriving Repr, DecidableEq

/-- One `swaps` row. -/
structure SwapRow where
  blockNumber : Nat
  blockTimestamp : Nat
  transactionHash : String
  logIndex : Nat
  poolAddress : String
  sender : Nat
  recipient : Nat
  amount0In : String
  amount1In : String
  amount0Out : String
  amount1Out : String
deriving Repr, DecidableEq

structure Db where
  eventLogs : List AuditRow
  transfers : List TransferRow
  swaps : List SwapRow
deriving Repr, DecidableEq

/-- Writes issued for one event inside the transaction callback, in source
order: the audit row first, then the typed row for classified events.  An
Unknown event writes only its audit row, preserving the raw topics and
payload. -/
def eventWrites (blockNumber blockTimestamp : Nat) (db : Db) :
    DecodedEvent → Db
  | .erc20Transfer d =>
    { db with
      eventLogs := db.eventLogs ++
        [{ blockNumber := blockNumber
           blockTimestamp := blockTimestamp
           transactionHash := d.transactionHash
           logIndex := d.logIndex
           address := orDefault d.tokenAddress "0x"
           topics := []
           data := [] }]
      transfers := db.transfers ++
        [{ blockNumber := d.blockNumber
           blockTimestamp := d.blockTimestamp
           transactionHash := d.transactionHash
           logIndex := d.logIndex
           fromAddress := d.fromAddress
           toAddress := d.toAddress
           value := d.value
           tokenAddress := d.tokenAddress }] }
  | .swap d =>
    { db with
      eventLogs := db.eventLogs ++
        [{ blockNumber := blockNumber
           blockTimestamp := blockTimestamp
           transactionHash := d.transactionHash
           logIndex := d.logIndex
           address := orDefault d.poolAddress "0x"
           topics := []
           data := [] }]
      swaps := db.swaps ++
        [{ blockNumber := d.blockNumber
           blockTimestamp := d.blockTimestamp
           transactionHash := d.transactionHash
           logIndex := d.logIndex
           poolAddress := d.poolAddress
           sender := d.sender
           recipient := d.recipient
           amount0In := d.amount0In
           amount1In := d.amount1In
           amount0Out := d.amount0Out
           amount1Out := d.amount1Out }] }
  | .unknown log =>
    { db with
      eventLogs := db.eventLogs ++
        [{ blockNumber := blockNumber
           blockTimestamp := blockTimestamp
           transactionHash := log.transactionHash.getD ""
           logIndex := log.logIndex.getD 0
           address := orDefault log.address "0x"
           topics := log.topics
           data := log.data }] }

/-- The transaction callback of `saveBlockEvents`: fold the per-event writes
over the batch in input order. -/
def txWrites (blockNumber blockTimestamp : Nat) (events : List DecodedEvent)
    (db : Db) : Db :=
  events.foldl (eventWrites blockNumber blockTimestamp) db

/-- Modelled from the spec: the transactional multi-write primitive of the
persistence backend (the prisma interactive transaction, an external
collaborator not in this repository).  Per the contract "either every
event is committed in full or none are (wrapped in one transaction)": with
no injected fault the writes of the callback are committed in full; with a
fault the database is left unchanged and the fault is raised. -/
def prismaTransaction (db : Db) (writes : Db → Db) (fault : Option String) :
    Db × Except String Unit :=
  match fault with
  | none => (writes db, .ok ())
  | some e => (db, .error e)

/-- Embedding of `EventStorage.saveBlockEvents`: run one transaction over the whole
batch; on failure log and rethrow the same error.  Result: the observable
database afterward, the outcome, and the number of transaction calls
performed. -/
def saveBlockEvents (db : Db) (blockNumber blockTimestamp : Nat)
    (events : List DecodedEvent) (fault : Option String) :
    Db × Except String Unit × Nat :=
  match prismaTransaction db (txWrites blockNumber blockTimestamp events) fault with
  | (db2, .ok _) => (db2, .ok (), 1)
  | (db2, .error e) => (db2, .error e, 1)

/-! ## exponentialRetry (`src/lib/retry.ts`)

The function under retry is modelled attempt-indexed (`fn k` is the outcome
of invocation `k`), so distinct attempts may fail with distinct errors.
The model returns the final outcome, the number of invocations, and the
list of inter-attempt sleep delays in order. -/

structure RetryOptions where
  maxRetries : Nat
  baseDelayMs : Nat
  maxDelayMs : Nat
  backoffMultiplier : Nat
deriving Repr, DecidableEq

def DEFAULT_OPTIONS : RetryOptions :=
  { maxRetries := 3, baseDelayMs := 1000, maxDelayMs := 30000
    backoffMultiplier := 2 }

/-- The attempt loop of `exponentialRetry`; `remaining` is
`maxRetries - attempt`, so the `attempt === maxRetries` exhaustion check is
`remaining = 0`.  After each sleep the delay becomes
`min (delay * backoffMultiplier) maxDelayMs`. -/
def retryAux {α : Type} (fn : Nat → Except String α) (multiplier cap : Nat) :
    Nat → Nat → Nat → Except String α × Nat × List Nat
  | attempt, remaining, delay =>
    match fn attempt, remaining with
    | .ok a, _ => (.ok a, 1, [])
    | .error e, 0 => (.error e, 1, [])
    | .error _, r + 1 =>
      let res := retryAux fn multiplier cap (attempt + 1) r
        (min (delay * multiplier) cap)
      (res.1, res.2.1 + 1, delay :: res.2.2)

def exponentialRetry {α : Type} (fn : Nat → Except String α)
    (opts : RetryOptions) : Except String α × Nat × List Nat :=
  retryAux fn opts.backoffMultiplier opts.maxDelayMs 0 opts.maxRetries
    opts.baseDelayMs

/-! ## BlockPoller (`src/indexer/block-poller.ts`) -/

/-- The outcome of `pollBlocks` for one cycle, as observed by the `start`
loop: success, or failure after retry exhaustion. -/
inductive CycleResult where
  | ok : CycleResult
  | fail (e : String) : CycleResult
deriving Repr, DecidableEq

/-- Where the `start` loop ends up after consuming a finite trace of cycle
outcomes: still running with the current consecutive-error count, or stopped
with the re-raised error and the count at that point. -/
inductive PollerEnd where
  | running (errorCount : Nat)
  | stopped (err : String) (errorCount : Nat)
deriving Repr, DecidableEq

/-- Embedding of the `BlockPoller.start` cycle loop: a successful cycle resets the
consecutive-error counter to zero; a failed cycle increments it and, when
the incremented count exceeds 10, flips `isRunning` off and re-raises the
cycle error. -/
def startLoop : List CycleResult → Nat → PollerEnd
  | [], errorCount => .running errorCount
  | .ok :: rest, _ => startLoop rest 0
  | .fail e :: rest, errorCount =>
    if errorCount + 1 > 10 then .stopped e (errorCount + 1)
    else startLoop rest (errorCount + 1)

/-- The batch loop of `pollBlocks`: `field` is the value of the
`currentBlock` field (unassigned inside the loop), `block` the loop
variable.  Each entry records one batch `(fromBlock, toBlock)` range and
the value `getCurrentBlock()` would report right after that batch
completes. -/
def pollLoop (field block endB : Nat) : List ((Nat × Nat) × Nat) :=
  if block ≤ endB then
    ((block, min (block + 99) endB), field) :: pollLoop field (block + 100) endB
  else []
termination_by endB + 1 - block
decreasing_by omega

/-- One `pollBlocks` cycle over latest height `latest` starting at cursor
`cur`: below-cursor heights return early with no batches; otherwise the
batch loop runs and only then is the field assigned `endBlock + 1`.
Result: the per-batch trace and the final `currentBlock`. -/
def pollCycle (cur latest : Nat) : List ((Nat × Nat) × Nat) × Nat :=
  if latest < cur then ([], cur)
  else (pollLoop cur cur latest, latest + 1)

/-- Value of `getCurrentBlock` after one whole cycle. -/
def cursorAfterCycle (cur latest : Nat) : Nat := (pollCycle cur latest).2

/-! ## IndexerEventEmitter (`src/indexer/indexer.ts`)

A JavaScript `Set` is an insertion-ordered entry list; `delete` tombstones
the entry (`none`), `add` appends when the value is not already live, and
`for...of` walks the entries by position, skipping tombstones and visiting
entries appended during iteration.  Listeners are identified by numeric
ids; what a listener does when invoked is a list of bus effects. -/

/-- The live values of the listener set, in insertion order. -/
def liveListeners (s : List (Option Nat)) : List Nat := s.filterMap id

/-- JavaScript `Set.add` keyed by callback identity: a no-op when already present. -/
def setAdd (s : List (Option Nat)) (cb : Nat) : List (Option Nat) :=
  if cb ∈ liveListeners s then s else s ++ [some cb]

/-- JavaScript `Set.delete`: tombstone the entry holding the value, if any. -/
def setDelete : List (Option Nat) → Nat → List (Option Nat)
  | [], _ => []
  | slot :: rest, cb =>
    if slot = some cb then none :: rest else slot :: setDelete rest cb

inductive BusEffect where
  | subscribeListener (cb : Nat)
  | cancelListener (cb : Nat)
deriving Repr, DecidableEq

def applyEffect (s : List (Option Nat)) : BusEffect → List (Option Nat)
  | .subscribeListener cb => setAdd s cb
  | .cancelListener cb => setDelete s cb

def applyEffects (effects : List BusEffect) (s : List (Option Nat)) :
    List (Option Nat) := effects.foldl applyEffect s

/-- Embedding of `IndexerEventEmitter.emit`: iterate the live listener set by entry
position, invoking each live listener (its effects mutate the set in
place); tombstoned entries are skipped.  `fuel` bounds the number of
positions examined — for a set the listeners do not grow, the entry count
suffices.  Result: the listeners invoked, in order, and the final set. -/
def emitFrom (behave : Nat → List BusEffect) :
    Nat → Nat → List (Option Nat) → List Nat × List (Option Nat)
  | 0, _, s => ([], s)
  | fuel + 1, i, s =>
    if h : i < s.length then
      match s.get ⟨i, h⟩ with
      | none => emitFrom behave fuel (i + 1) s
      | some cb =>
        let s2 := applyEffects (behave cb) s
        let rest := emitFrom behave fuel (i + 1) s2
        (cb :: rest.1, rest.2)
    else ([], s)

/-! ## OnchainIndexer.processBlock (`src/indexer/indexer.ts`)

The handler decodes every log of the block in input order, persists the
decoded batch, and only after the save resolves publishes each decoded
event to the bus in the same order; a rejected save increments the
orchestrator error count, publishes nothing, and rethrows.  `saveResult`
stands for the awaited outcome of `saveBlockEvents`. -/

def processBlock (logs : List Log) (blockTimestamp : Nat)
    (saveResult : Except String Unit) (errorCount : Nat) :
    Except String Unit × List DecodedEvent × Nat :=
  let decodedEvents := logs.map (fun log => decode log blockTimestamp)
  match saveResult with
  | .ok _ => (.ok (), decodedEvents, errorCount)
  | .error e => (.error e, [], errorCount + 1)

/-! ## Helper lemmas -/

/-- The sleep-delay sequence produced by the retry loop: starting from
`delay`, each subsequent delay is `min (delay * multiplier) cap`. -/
def delaySeq (multiplier cap : Nat) : Nat → Nat → List Nat
  | 0, _ => []
  | r + 1, delay => delay :: delaySeq multiplier cap r (min (delay * multiplier) cap)

theorem retryAux_fail {α : Type} (fn : Nat → Except String α)
    (es : Nat → String) (hfail : ∀ k, fn k = .error (es k)) (m cap : Nat) :
    ∀ remaining attempt delay,
      retryAux fn m cap attempt remaining delay =
        (.error (es (attempt + remaining)), remaining + 1,
          delaySeq m cap remaining delay)
  | 0, attempt, delay => by
    unfold retryAux
    rw [hfail attempt]
    simp [delaySeq]
  | r + 1, attempt, delay => by
    have ih := retryAux_fail fn es hfail m cap r (attempt + 1)
      (min (delay * m) cap)
    unfold retryAux
    rw [hfail attempt]
    simp only [ih, delaySeq]
    have harith : attempt + (r + 1) = attempt + 1 + r := by omega
    rw [harith]

theorem startLoop_fail_streak :
    ∀ (es : List String) (e : String) (ec : Nat), ec + es.length = 10 →
      startLoop (es.map CycleResult.fail ++ [CycleResult.fail e]) ec =
        PollerEnd.stopped e 11
  | [], e, ec, h => by
    have hec : ec = 10 := by simpa using h
    subst hec
    simp [startLoop]
  | f :: es, e, ec, h => by
    have hlt : ¬ ec + 1 > 10 := by simp at h; omega
    have ih := startLoop_fail_streak es e (ec + 1) (by simp at h ⊢; omega)
    simpa [startLoop, hlt] using ih

/-! ## Claims -/

/-- C8: for a function failing on every invocation, `exponentialRetry` calls
it exactly `maxRetries + 1` times and re-raises the error of the final
attempt unchanged; the defaults are 3 retries, 1000 ms base delay,
multiplier 2 and a 30000 ms cap, and under the defaults each inter-attempt
delay is `min (baseDelayMs * backoffMultiplier ^ k) maxDelayMs`. -/
theorem C8_exponentialRetry_exhaustion {α : Type} (fn : Nat → Except String α)
    (es : Nat → String) (hfail : ∀ k, fn k = Except.error (es k))
    (opts : RetryOptions) :
    exponentialRetry fn opts =
      (Except.error (es opts.maxRetries), opts.maxRetries + 1,
        delaySeq opts.backoffMultiplier opts.maxDelayMs opts.maxRetries
          opts.baseDelayMs) ∧
    DEFAULT_OPTIONS =
      { maxRetries := 3, baseDelayMs := 1000, maxDelayMs := 30000
        backoffMultiplier := 2 } ∧
    delaySeq 2 30000 3 1000 =
      [min (1000 * 2 ^ 0) 30000, min (1000 * 2 ^ 1) 30000,
        min (1000 * 2 ^ 2) 30000] := by
  refine ⟨?_, rfl, by decide⟩
  have h := retryAux_fail fn es hfail opts.backoffMultiplier opts.maxDelayMs
    opts.maxRetries 0 opts.baseDelayMs
  simpa [exponentialRetry] using h

/-- Witness for C8 at a concrete always-failing function whose errors differ
per attempt: four invocations, the error of the fourth attempt re-raised, delays
1s, 2s, 4s. -/
theorem C8_witness :
    exponentialRetry (fun k => (Except.error (toString k) : Except String Unit))
        DEFAULT_OPTIONS =
      (Except.error "3", 4, [1000, 2000, 4000]) := by
  have h := C8_exponentialRetry_exhaustion
    (fun k => (Except.error (toString k) : Except String Unit)) toString
    (fun _ => rfl) DEFAULT_OPTIONS
  rw [h.1]
  rfl

/-- C3 as stated is false: a run of exactly 10 consecutive failing cycles
leaves the poller loop still running (the stop check is
`errorCount > 10`), so the loop does not stop after the 10th consecutive
failure. -/
theorem C3_counterexample :
    startLoop (List.replicate 10 (CycleResult.fail "boom")) 0 =
      PollerEnd.running 10 := by decide

/-- C3 amended: a failed cycle increments the consecutive-error counter, a
successful cycle resets it to zero, and the loop stops permanently —
re-raising the failing cycle error — when the incremented counter exceeds
10, that is after 11 consecutive cycle failures. -/
theorem C3_amended_failure_threshold :
    (∀ rest ec, startLoop (CycleResult.ok :: rest) ec = startLoop rest 0) ∧
    (∀ e rest ec, ec + 1 ≤ 10 →
      startLoop (CycleResult.fail e :: rest) ec = startLoop rest (ec + 1)) ∧
    (∀ (es : List String) (e : String), es.length = 10 →
      startLoop (es.map CycleResult.fail ++ [CycleResult.fail e]) 0 =
        PollerEnd.stopped e 11) := by
  refine ⟨fun rest ec => rfl, fun e rest ec h => ?_, fun es e h => ?_⟩
  · have : ¬ ec + 1 > 10 := by omega
    simp [startLoop, this]
  · exact startLoop_fail_streak es e 0 (by omega)

/-- Witness for C3 amended: ten failing cycles followed by an eleventh stop
the loop with the eleventh cycle error; a success after nine failures
resets the counter. -/
theorem C3_witness :
    startLoop ((List.replicate 10 "rpc down").map CycleResult.fail ++
        [CycleResult.fail "boom"]) 0 =
      PollerEnd.stopped "boom" 11 ∧
    startLoop (CycleResult.fail "x" :: [CycleResult.ok]) 5 =
      startLoop [CycleResult.ok] 6 := by
  refine ⟨C3_amended_failure_threshold.2.2 (List.replicate 10 "rpc down")
    "boom" (by decide), C3_amended_failure_threshold.2.1 "x" [CycleResult.ok]
    5 (by decide)⟩

theorem pollLoop_entries (field : Nat) :
    ∀ block endB, ∀ entry ∈ pollLoop field block endB,
      entry.2 = field ∧ entry.1.2 = min (entry.1.1 + 99) endB ∧
        block ≤ entry.1.1 := by
  intro block endB
  induction block, endB using pollLoop.induct field with
  | case1 block endB hle ih =>
    intro entry hmem
    rw [pollLoop, if_pos hle] at hmem
    rcases List.mem_cons.mp hmem with h | h
    · subst h; simp
    · have hrest := ih entry h
      refine ⟨hrest.1, hrest.2.1, by omega⟩
  | case2 block endB hle =>
    intro entry hmem
    rw [pollLoop, if_neg hle] at hmem
    simp at hmem

theorem pollLoop_two_batches :
    pollLoop 0 0 150 = [((0, 99), 0), ((100, 150), 0)] := by
  rw [pollLoop, pollLoop, pollLoop]
  norm_num

/-- C4 as stated is false: over the range [0, 150] (two 100-block batches,
the first ending at 99), the recorded cursor observed after the first batch
completes is still 0, not `batchEnd + 1 = 100`; the `currentBlock` field is
assigned only once, after the whole cycle. -/
theorem C4_counterexample :
    (pollCycle 0 150).1 = [((0, 99), 0), ((100, 150), 0)] ∧
    (pollCycle 0 150).1.map Prod.snd ≠ [100, 151] := by
  have hcycle : pollCycle 0 150 = (pollLoop 0 0 150, 151) := by
    rw [pollCycle]
    norm_num
  rw [hcycle, pollLoop_two_batches]
  refine ⟨rfl, by decide⟩

/-- C4 amended: a cycle over [cursor, latestHeight] splits the range into
100-block batches (each batch runs from its start to
`min (start + 99) latestHeight`), the recorded cursor position stays at its
pre-cycle value after each batch completes, and only after the whole cycle
does it advance, to `latestHeight + 1`. -/
theorem C4_amended_cursor_advance (cur latest : Nat) (h : cur ≤ latest) :
    (∀ entry ∈ (pollCycle cur latest).1,
      entry.2 = cur ∧ entry.1.2 = min (entry.1.1 + 99) latest ∧
        cur ≤ entry.1.1) ∧
    (pollCycle cur latest).2 = latest + 1 := by
  have hn : ¬ latest < cur := by omega
  rw [pollCycle, if_neg hn]
  exact ⟨fun entry hm => pollLoop_entries cur cur latest entry hm, rfl⟩

/-- Witness for C4 amended at cursor 0, latest height 150: the cycle ends
with the cursor at 151, and the first batch trace entry still shows
cursor 0 with batch range (0, 99). -/
theorem C4_witness :
    (pollCycle 0 150).2 = 151 ∧
    ((((0, 99), 0) : (Nat × Nat) × Nat)).2 = 0 := by
  have h := C4_amended_cursor_advance 0 150 (by decide)
  refine ⟨h.2, (h.1 ((0, 99), 0) ?_).1⟩
  have hcycle : pollCycle 0 150 = (pollLoop 0 0 150, 151) := by
    rw [pollCycle]
    norm_num
  rw [hcycle, pollLoop_two_batches]
  simp

/-- C9 as stated is false: a cycle starting at cursor 0 that observes
latest height 5 leaves the cursor at 6 = latest + 1, not at the observed
height 5. -/
theorem C9_counterexample :
    cursorAfterCycle 0 5 = 6 ∧ (6 : Nat) ≠ 5 := by
  constructor
  · rw [cursorAfterCycle, pollCycle]
    norm_num
  · decide

/-- C9 amended: the cursor reported by `getCurrentBlock` never decreases
across cycles; a cycle observing a latest height below the cursor leaves it
unchanged, and a cycle observing latest ≥ cursor sets it to latest + 1. -/
theorem C9_amended_cursor_monotone :
    (∀ cur latest, cur ≤ cursorAfterCycle cur latest) ∧
    (∀ cur latest, latest < cur → cursorAfterCycle cur latest = cur) ∧
    (∀ cur latest, cur ≤ latest → cursorAfterCycle cur latest = latest + 1) ∧
    (∀ (heights : List Nat) (cur : Nat),
      cur ≤ List.foldl cursorAfterCycle cur heights) := by
  have hstep : ∀ cur latest, cur ≤ cursorAfterCycle cur latest := by
    intro cur latest
    rw [cursorAfterCycle, pollCycle]
    split
    · simp
    · simp
      omega
  have hfold : ∀ (heights : List Nat) (cur : Nat),
      cur ≤ List.foldl cursorAfterCycle cur heights := by
    intro heights
    induction heights with
    | nil => simp
    | cons hd tl ih =>
      intro cur
      exact le_trans (hstep cur hd) (ih _)
  refine ⟨hstep, ?_, ?_, hfold⟩
  · intro cur latest hlt
    rw [cursorAfterCycle, pollCycle, if_pos hlt]
  · intro cur latest hle
    rw [cursorAfterCycle, pollCycle, if_neg (by omega)]

/-- Witness for C9 amended: latest 3 below cursor 7 leaves the cursor at 7;
latest 5 at or above cursor 0 moves it to 6. -/
theorem C9_witness :
    cursorAfterCycle 7 3 = 7 ∧ cursorAfterCycle 0 5 = 6 := by
  refine ⟨C9_amended_cursor_monotone.2.1 7 3 (by decide), ?_⟩
  have h := C9_amended_cursor_monotone.2.2.1 0 5 (by decide)
  omega

/-- C1: the per-block handler publishes to the bus only after persistence
succeeds — when the save resolves, exactly one event is published per input
log, in the same relative order as the block log list (the map of
`decode` over the logs); when the save rejects, no event from the block is
published (the published list is empty), the error propagates, and the
orchestrator error count is incremented. -/
theorem C1_publish_after_persist (logs : List Log)
    (blockTimestamp errorCount : Nat) (e : String) :
    processBlock logs blockTimestamp (Except.ok ()) errorCount =
      (Except.ok (), logs.map (fun log => decode log blockTimestamp),
        errorCount) ∧
    processBlock logs blockTimestamp (Except.error e) errorCount =
      (Except.error e, [], errorCount + 1) := by
  exact ⟨rfl, rfl⟩

/-- C2: `saveBlockEvents` wraps the whole batch in exactly one transaction
call whatever the batch (including the empty batch); with no fault the
committed state is the fold of the per-event writes over the batch in input
order, and when the transaction rejects the call rejects with the very same
error and the observable database is unchanged — no row of the batch
survives. -/
theorem C2_saveBlockEvents_atomic (db : Db) (blockNumber blockTimestamp : Nat)
    (events : List DecodedEvent) (e : String) :
    saveBlockEvents db blockNumber blockTimestamp events none =
      (txWrites blockNumber blockTimestamp events db, Except.ok (), 1) ∧
    saveBlockEvents db blockNumber blockTimestamp events (some e) =
      (db, Except.error e, 1) ∧
    saveBlockEvents db blockNumber blockTimestamp [] none =
      (db, Except.ok (), 1) := by
  exact ⟨rfl, rfl, rfl⟩

/-- C6: `decode` is total by construction — it returns exactly one
`DecodedEvent` for every log and timestamp, and a schema mismatch is a
local `none` that never aborts the call.  The candidates are tried in the
fixed order Transfer, V2 Swap, V3 Swap with the first match winning, and
when no schema matches the result is `unknown` carrying the input record
itself. -/
theorem C6_decode_first_match (log : Log) (ts : Nat) :
    (∀ d, tryDecodeERC20Transfer log ts = some d →
      decode log ts = DecodedEvent.erc20Transfer d) ∧
    (∀ s, tryDecodeERC20Transfer log ts = none →
      tryDecodeSwapV2 log ts = some s →
      decode log ts = DecodedEvent.swap s) ∧
    (∀ s, tryDecodeERC20Transfer log ts = none →
      tryDecodeSwapV2 log ts = none → tryDecodeSwapV3 log ts = some s →
      decode log ts = DecodedEvent.swap s) ∧
    (tryDecodeERC20Transfer log ts = none → tryDecodeSwapV2 log ts = none →
      tryDecodeSwapV3 log ts = none →
      decode log ts = DecodedEvent.unknown log) := by
  refine ⟨?_, ?_, ?_, ?_⟩
  · intro d h1
    simp [decode, h1]
  · intro s h1 h2
    simp [decode, h1, h2]
  · intro s h1 h2 h3
    simp [decode, h1, h2, h3]
  · intro h1 h2 h3
    simp [decode, h1, h2, h3]

/-- An ERC-20 Transfer log with value 10^18, for the C6 witness. -/
def c6TransferLog : Log :=
  { address := "0xT0ken"
    data := [1000000000000000000]
    topics := [TRANSFER_SIG, 0xaaaa, 0xbbbb]
    transactionHash := some "0xabc"
    logIndex := some 0
    blockNumber := some 18000000
    removed := false }

/-- A log whose topic signature matches no schema, for the C6 witness. -/
def c6UnknownLog : Log :=
  { address := "0x5555"
    data := []
    topics := [0x1234]
    transactionHash := none
    logIndex := none
    blockNumber := none
    removed := false }

/-- Witness for C6: an unmatched topic signature decodes to `unknown`
preserving the input record itself, and a well-formed Transfer log with
value 10^18 decodes to a Transfer with value "1000000000000000000". -/
theorem C6_witness :
    decode c6UnknownLog 7 = DecodedEvent.unknown c6UnknownLog ∧
    decode c6TransferLog 7 = DecodedEvent.erc20Transfer
      { fromAddress := 0xaaaa, toAddress := 0xbbbb
        value := "1000000000000000000", tokenAddress := "0xT0ken"
        transactionHash := "0xabc", logIndex := 0, blockNumber := 18000000
        blockTimestamp := 7 } := by
  refine ⟨(C6_decode_first_match c6UnknownLog 7).2.2.2 (by decide) (by decide)
    (by decide), (C6_decode_first_match c6TransferLog 7).1 _ (by decide)⟩

/-- C7: whenever a log matches the V3 Swap schema, the sign of each signed
amount selects the column: a negative amount is stored in the In column as
the decimal string of its absolute value with the Out column "0"; a
positive amount is stored in the Out column with the In column "0"; a zero
amount leaves both columns "0". -/
theorem C7_swapV3_sign_convention (log : Log) (ts : Nat) (d : SwapData)
    (h : tryDecodeSwapV3 log ts = some d) :
    (toSigned256 (log.data.getD 0 0) < 0 →
      d.amount0In = toString (-(toSigned256 (log.data.getD 0 0))) ∧
      d.amount0Out = "0") ∧
    (0 < toSigned256 (log.data.getD 0 0) →
      d.amount0Out = toString (toSigned256 (log.data.getD 0 0)) ∧
      d.amount0In = "0") ∧
    (toSigned256 (log.data.getD 0 0) = 0 →
      d.amount0In = "0" ∧ d.amount0Out = "0") ∧
    (toSigned256 (log.data.getD 1 0) < 0 →
      d.amount1In = toString (-(toSigned256 (log.data.getD 1 0))) ∧
      d.amount1Out = "0") ∧
    (0 < toSigned256 (log.data.getD 1 0) →
      d.amount1Out = toString (toSigned256 (log.data.getD 1 0)) ∧
      d.amount1In = "0") ∧
    (toSigned256 (log.data.getD 1 0) = 0 →
      d.amount1In = "0" ∧ d.amount1Out = "0") := by
  rw [tryDecodeSwapV3] at h
  split at h
  · have hd := Option.some.inj h
    subst hd
    dsimp only
    refine ⟨fun hs => ⟨?_, ?_⟩, fun hs => ⟨?_, ?_⟩, fun hs => ⟨?_, ?_⟩,
      fun hs => ⟨?_, ?_⟩, fun hs => ⟨?_, ?_⟩, fun hs => ⟨?_, ?_⟩⟩
    · rw [if_pos hs]
    · rw [if_neg (by omega)]
    · rw [if_pos hs]
    · rw [if_neg (by omega)]
    · rw [if_neg (by omega)]
    · rw [if_neg (by omega)]
    · rw [if_pos hs]
    · rw [if_neg (by omega)]
    · rw [if_pos hs]
    · rw [if_neg (by omega)]
    · rw [if_neg (by omega)]
    · rw [if_neg (by omega)]
  · simp at h

/-- A V3 Swap log carrying amount0 = -500000 (as a twos-complement 256-bit
word) and amount1 = 1000000, for the C7 witness. -/
def c7SwapV3Log : Log :=
  { address := "0xP00l"
    data := [2 ^ 256 - 500000, 1000000, 0, 0, 0]
    topics := [SWAP_V3_SIG, 0xcccc, 0xdddd]
    transactionHash := some "0xdef"
    logIndex := some 1
    blockNumber := some 18000001
    removed := false }

/-- The V3 swap record `tryDecodeSwapV3` produces for `c7SwapV3Log`. -/
def c7SwapV3Data : SwapData :=
  { poolAddress := "0xP00l", sender := 0xcccc, recipient := 0xdddd
    amount0In := "500000", amount1In := "0", amount0Out := "0"
    amount1Out := "1000000", transactionHash := "0xdef", logIndex := 1
    blockNumber := 18000001, blockTimestamp := 7 }

/-- Witness for C7 at the spec concrete instance: amount0 = -500000 and
amount1 = 1000000 decode to amount0In = "500000", amount1In = "0",
amount0Out = "0", amount1Out = "1000000". -/
theorem C7_witness :
    c7SwapV3Data.amount0In = "500000" ∧ c7SwapV3Data.amount0Out = "0" ∧
    c7SwapV3Data.amount1Out = "1000000" ∧ c7SwapV3Data.amount1In = "0" := by
  have h := C7_swapV3_sign_convention c7SwapV3Log 7 c7SwapV3Data (by decide)
  refine ⟨(h.1 (by decide)).1, (h.1 (by decide)).2,
    (h.2.2.2.2.1 (by decide)).1, (h.2.2.2.2.1 (by decide)).2⟩

theorem mem_liveListeners (cb : Nat) (s : List (Option Nat)) :
    cb ∈ liveListeners s ↔ some cb ∈ s := by
  simp [liveListeners]

theorem emitFrom_no_mutation (behave : Nat → List BusEffect)
    (hb : ∀ cb, behave cb = []) :
    ∀ fuel i s, s.length ≤ fuel + i →
      (emitFrom behave fuel i s).1 = liveListeners (s.drop i)
  | 0, i, s => fun hlen => by
    have hd : s.drop i = [] := List.drop_eq_nil_of_le (by omega)
    simp [emitFrom, hd, liveListeners]
  | fuel + 1, i, s => fun hlen => by
    by_cases h : i < s.length
    · have hdrop := List.drop_eq_getElem_cons h
      cases hget : s.get ⟨i, h⟩ with
      | none =>
        have ih := emitFrom_no_mutation behave hb fuel (i + 1) s (by omega)
        simp only [emitFrom, dif_pos h, hget, ih, hdrop]
        rw [← List.get_eq_getElem s ⟨i, h⟩, hget]
        simp [liveListeners]
      | some cb =>
        have ih := emitFrom_no_mutation behave hb fuel (i + 1) s (by omega)
        simp only [emitFrom, dif_pos h, hget, hb cb]
        have happ : applyEffects [] s = s := rfl
        simp only [happ, ih, hdrop]
        rw [← List.get_eq_getElem s ⟨i, h⟩, hget]
        simp [liveListeners]
    · have hd : s.drop i = [] := List.drop_eq_nil_of_le (by omega)
      simp [emitFrom, dif_neg h, hd, liveListeners]

theorem setAdd_idem (s : List (Option Nat)) (cb : Nat) :
    setAdd (setAdd s cb) cb = setAdd s cb := by
  by_cases h : cb ∈ liveListeners s
  · simp [setAdd, h]
  · have hm : cb ∈ liveListeners (s ++ [some cb]) := by
      simp [liveListeners, List.filterMap_append]
    simp [setAdd, h, hm]

theorem setDelete_not_mem :
    ∀ (s : List (Option Nat)) (cb : Nat), some cb ∉ s → setDelete s cb = s
  | [], cb => fun _ => rfl
  | slot :: rest, cb => fun hmem => by
    have hs : ¬ slot = some cb := fun he => hmem (by simp [he])
    have hr : some cb ∉ rest := fun hm => hmem (by simp [hm])
    simp [setDelete, hs, setDelete_not_mem rest cb hr]

theorem not_mem_setDelete :
    ∀ (s : List (Option Nat)) (cb : Nat), (liveListeners s).Nodup →
      some cb ∉ setDelete s cb
  | [], cb => fun _ => by simp [setDelete]
  | slot :: rest, cb => fun hnd => by
    cases slot with
    | none =>
      have hnd2 : (liveListeners rest).Nodup := by
        simpa [liveListeners] using hnd
      simpa [setDelete] using not_mem_setDelete rest cb hnd2
    | some x =>
      by_cases hx : x = cb
      · subst hx
        have hnm : some x ∉ rest := by
          have hh := hnd
          simp [liveListeners] at hh
          exact hh.1
        simpa [setDelete] using hnm
      · have hnd2 : (liveListeners rest).Nodup := by
          have hh := hnd
          simp [liveListeners] at hh
          exact hh.2
        have hrec := not_mem_setDelete rest cb hnd2
        have hxs : ¬ (some x : Option Nat) = some cb := by simp [hx]
        simp [setDelete, hxs, hrec]
        intro he
        exact hx he.symm

theorem setDelete_idem (s : List (Option Nat)) (cb : Nat)
    (hnd : (liveListeners s).Nodup) :
    setDelete (setDelete s cb) cb = setDelete s cb :=
  setDelete_not_mem (setDelete s cb) cb (not_mem_setDelete s cb hnd)

/-- A listener behavior for the C5 counterexample: listener 1 subscribes a
new listener 3 while the event is being delivered. -/
def subscribingBehavior : Nat → List BusEffect
  | 1 => [BusEffect.subscribeListener 3]
  | _ => []

/-- C5 as stated is false: with listeners {1, 2} registered at the start of
the publish call and listener 1 subscribing listener 3 during delivery, the
delivered list is [1, 2, 3] — listener 3, which was not registered when the
publish began, also receives the event, so `emit` does not iterate a stable
snapshot taken at the start of the call. -/
theorem C5_counterexample :
    liveListeners [some 1, some 2] = [1, 2] ∧
    (emitFrom subscribingBehavior 5 0 [some 1, some 2]).1 = [1, 2, 3] ∧
    (emitFrom subscribingBehavior 5 0 [some 1, some 2]).1 ≠
      liveListeners [some 1, some 2] := by decide

/-- C5 amended: `emit` iterates the live listener set by entry position
rather than a snapshot taken at the start of the call, so delivery to
exactly the listeners registered at the moment the publish call began holds
only under the added hypothesis that no listener mutates the set during
delivery; in that case every listener registered at the start is invoked,
synchronously, in registration order. -/
theorem C5_amended_live_set_delivery (behave : Nat → List BusEffect)
    (fuel : Nat) (s : List (Option Nat)) (hb : ∀ cb, behave cb = [])
    (hfuel : s.length ≤ fuel) :
    (emitFrom behave fuel 0 s).1 = liveListeners s := by
  have h := emitFrom_no_mutation behave hb fuel 0 s (by omega)
  simpa using h

/-- Witness for C5 amended: mutation-free delivery over the set holding
listener 7 (one entry tombstoned) invokes exactly listener 7. -/
theorem C5_witness :
    (emitFrom (fun _ => []) 2 0 [some 7, none]).1 =
      liveListeners [some 7, none] :=
  C5_amended_live_set_delivery (fun _ => []) 2 [some 7, none]
    (fun _ => rfl) (by decide)

/-- C10: the bus keys listeners by callback identity in a set — a second
`subscribe` of the same callback is a no-op on the listener set; `delete`
(what every cancel handle of that callback runs) removes the registration
entirely and a second invocation of a cancel handle is a no-op; and during
a mutation-free publish a registered callback is invoked at most once. -/
theorem C10_set_semantics :
    (∀ (s : List (Option Nat)) (cb : Nat),
      setAdd (setAdd s cb) cb = setAdd s cb) ∧
    (∀ (s : List (Option Nat)) (cb : Nat), (liveListeners s).Nodup →
      cb ∉ liveListeners (setDelete s cb)) ∧
    (∀ (s : List (Option Nat)) (cb : Nat), (liveListeners s).Nodup →
      setDelete (setDelete s cb) cb = setDelete s cb) ∧
    (∀ (behave : Nat → List BusEffect) (fuel : Nat) (s : List (Option Nat))
      (cb : Nat), (∀ x, behave x = []) → (liveListeners s).Nodup →
      s.length ≤ fuel → List.count cb (emitFrom behave fuel 0 s).1 ≤ 1) := by
  refine ⟨setAdd_idem, ?_, setDelete_idem, ?_⟩
  · intro s cb hnd
    rw [mem_liveListeners]
    exact not_mem_setDelete s cb hnd
  · intro behave fuel s cb hb hnd hlen
    have hdel := emitFrom_no_mutation behave hb fuel 0 s (by omega)
    simp only [List.drop_zero] at hdel
    rw [hdel]
    exact List.nodup_iff_count_le_one.mp hnd cb

/-- Witness for C10: double subscription of callback 4 on the empty set is
one registration; deleting it removes it; a double delete is a no-op; and a
mutation-free publish to {4} delivers to 4 exactly once. -/
theorem C10_witness :
    setAdd (setAdd [] 4) 4 = setAdd [] 4 ∧
    4 ∉ liveListeners (setDelete [some 4] 4) ∧
    setDelete (setDelete [some 4] 4) 4 = setDelete [some 4] 4 ∧
    List.count 4 (emitFrom (fun _ => []) 1 0 [some 4]).1 ≤ 1 := by
  refine ⟨C10_set_semantics.1 [] 4, C10_set_semantics.2.1 [some 4] 4 (by decide),
    C10_set_semantics.2.2.1 [some 4] 4 (by decide),
    C10_set_semantics.2.2.2 (fun _ => []) 1 [some 4] 4 (fun _ => rfl)
      (by decide) (by decide)⟩

end InkIndexer
